import Mathlib

/-!
Verification of the LMS AI-chat feature: a shallow embedding of the chat
service (provider selection, payload conversion, fetch handling, session
storage) and of the chat page component (message list, input, loading flag),
with theorems settling the specified properties.

Modelling conventions:
* JS numbers used as timestamps and ids are modelled as `Nat` (millisecond
  clock readings are non-negative).
* The JS rendering of a number to a decimal string, and the rendering of a
  valid `Date` to a string by JSON serialisation together with its recovery
  by the `Date` constructor, are modelled by the injective decimal codec
  `natToString` / `stringToNat` below.
* `fetch` and the JSON bodies of provider responses are modelled by an
  explicit oracle value (`FetchResult`) describing the outcome a provider
  call would observe; thrown JS values are `JsThrown`.
* `sessionStorage` under the single key used by the service is modelled by
  `StoreState`: the key can be absent, hold an unparsable value, or hold a
  parsed array of stored records.
-/

/-- Decimal digits of `n`, least significant first, with explicit fuel so the
recursion is structural (fuel `n` always suffices since `n / 10 < n`). -/
def natDigitsRevAux : Nat → Nat → List Nat
  | 0, _ => []
  | fuel + 1, n => if n = 0 then [] else n % 10 :: natDigitsRevAux fuel (n / 10)

/-- Decimal digits of `n`, least significant first. -/
def natDigitsRev (n : Nat) : List Nat :=
  natDigitsRevAux n n

/-- Value of a little-endian list of decimal digits. -/
def digitsToNat : List Nat → Nat
  | [] => 0
  | d :: ds => d + 10 * digitsToNat ds

/-- Character for a single decimal digit. -/
def digitToChar (d : Nat) : Char :=
  Char.ofNat (48 + d)

/-- Numeric value of a decimal digit character. -/
def charToDigit (c : Char) : Nat :=
  c.toNat - 48

/-- The decimal string rendering of a natural number, as produced by the JS
number-to-string conversion. -/
def natToString (n : Nat) : String :=
  if n = 0 then "0" else String.mk (((natDigitsRev n).map digitToChar).reverse)

/-- Reading a decimal string back to a natural number. -/
def stringToNat (s : String) : Nat :=
  digitsToNat ((s.data.map charToDigit).reverse)

/-- JS string trim: strip leading and trailing whitespace (structural, over
the character list). -/
def jsTrim (s : String) : String :=
  String.mk (((s.data.dropWhile Char.isWhitespace).reverse.dropWhile
    Char.isWhitespace).reverse)

/-- A chat message of the service (`ChatMessage` in `ai-chat.service`); the
`Date` timestamp is its millisecond value. -/
structure ChatMessage where
  id : String
  text : String
  isUser : Bool
  timestamp : Nat
deriving DecidableEq

/-- Roles of the OpenAI-style wire format. -/
inductive OpenAIRole where
  | user
  | assistant
  | system
deriving DecidableEq

/-- A message of the OpenAI-style wire format. -/
structure OpenAIMessage where
  role : OpenAIRole
  content : String
deriving DecidableEq

/-- Roles of the Gemini wire format. -/
inductive GeminiRole where
  | user
  | model
deriving DecidableEq

/-- One part of a Gemini message. -/
structure GeminiPart where
  text : String
deriving DecidableEq

/-- A message of the Gemini wire format. -/
structure GeminiMessage where
  role : GeminiRole
  parts : List GeminiPart
deriving DecidableEq

/-- Content of a Gemini response candidate. -/
structure GeminiContent where
  parts : List GeminiPart
deriving DecidableEq

/-- A Gemini response candidate. -/
structure GeminiCandidate where
  content : GeminiContent
deriving DecidableEq

/-- The parsed body of a Gemini completion response. -/
structure GeminiResponse where
  candidates : List GeminiCandidate
deriving DecidableEq

/-- The message of an OpenAI response choice. -/
structure OpenAIChoiceMessage where
  content : String
deriving DecidableEq

/-- One choice of an OpenAI-style completion response. -/
structure OpenAIChoice where
  message : OpenAIChoiceMessage
deriving DecidableEq

/-- The parsed body of an OpenAI-style completion response. -/
structure OpenAIResponse where
  choices : List OpenAIChoice
deriving DecidableEq

/-- The system instruction used by both converters. -/
def systemPromptText : String :=
  "You are a helpful AI assistant for students in a Learning Management System. You can help with academic questions, study tips, project guidance, and general educational support. Be friendly, encouraging, and provide practical advice."

/-- `convertToOpenAIFormat`: a system message followed by the chat messages,
user messages mapped to the user role and the rest to the assistant role. -/
def convertToOpenAIFormat (messages : List ChatMessage) : List OpenAIMessage :=
  OpenAIMessage.mk OpenAIRole.system systemPromptText ::
    messages.map (fun msg =>
      OpenAIMessage.mk (if msg.isUser then OpenAIRole.user else OpenAIRole.assistant) msg.text)

/-- Body of `convertToGeminiFormat`: the `forEach` loop with its mutable
`firstUserMessage` flag becomes the Boolean accumulator. -/
def convertToGeminiFormatAux (firstUserMessage : Bool) :
    List ChatMessage → List GeminiMessage
  | [] => []
  | msg :: rest =>
    if msg.isUser then
      let content :=
        if firstUserMessage then systemPromptText ++ "\n\nUser: " ++ msg.text else msg.text
      GeminiMessage.mk GeminiRole.user [GeminiPart.mk content] ::
        convertToGeminiFormatAux false rest
    else
      GeminiMessage.mk GeminiRole.model [GeminiPart.mk msg.text] ::
        convertToGeminiFormatAux firstUserMessage rest

/-- `convertToGeminiFormat`: user messages keep the user role, others become
the model role, and the system instruction is spliced into the first
user-authored message. -/
def convertToGeminiFormat (messages : List ChatMessage) : List GeminiMessage :=
  convertToGeminiFormatAux true messages

/-- A value thrown by JS code: either an `Error` object carrying a message,
or any other thrown value. -/
inductive JsThrown where
  | errorObj (msg : String)
  | nonErrorValue
deriving DecidableEq

/-- Outcome a provider call observes from `fetch`: the promise rejects, the
response has a non-ok status (with the optional `error.message` of its JSON
body), or an ok status whose body parses to `α` unless `json()` throws. -/
inductive FetchResult (α : Type) where
  | reject (e : JsThrown)
  | httpError (status : Nat) (statusText : String) (errMsg : Option String)
  | ok (body : Except JsThrown α)

/-- A request issued to a provider endpoint: the provider, the converted
payload and the API key used. -/
inductive SentRequest where
  | gemini (contents : List GeminiMessage) (key : String)
  | groq (msgs : List OpenAIMessage) (key : String)
  | openai (msgs : List OpenAIMessage) (key : String)
deriving DecidableEq

/-- The network oracle: the outcome each provider call would observe. -/
structure Net where
  gemini : FetchResult GeminiResponse
  groq : FetchResult OpenAIResponse
  openai : FetchResult OpenAIResponse

/-- The three `import.meta.env` keys read by `getAIResponse`. -/
structure ApiEnv where
  geminiKey : Option String
  groqKey : Option String
  openaiKey : Option String

/-- JS truthiness of an environment variable: set and non-empty. -/
def jsTruthy : Option String → Bool
  | none => false
  | some s => !s.isEmpty

/-- Outcome processing of `getGeminiResponse` after the request is sent. -/
def geminiOutcome : FetchResult GeminiResponse → Except JsThrown String
  | FetchResult.reject e => Except.error e
  | FetchResult.httpError status statusText errMsg =>
    Except.error (JsThrown.errorObj
      ("Gemini API request failed: " ++ natToString status ++ " " ++ statusText ++ ". "
        ++ errMsg.getD ""))
  | FetchResult.ok (Except.error e) => Except.error e
  | FetchResult.ok (Except.ok data) =>
    match data.candidates with
    | [] => Except.error (JsThrown.errorObj "No response received from Gemini API")
    | c :: _ =>
      match c.content.parts with
      | [] => Except.error (JsThrown.errorObj "No response received from Gemini API")
      | p :: _ => Except.ok (jsTrim p.text)

/-- `getGeminiResponse`: sends one request with the Gemini-formatted payload
and processes the outcome. -/
def getGeminiResponse (messages : List ChatMessage) (apiKey : String)
    (fr : FetchResult GeminiResponse) : Except JsThrown String × List SentRequest :=
  (geminiOutcome fr, [SentRequest.gemini (convertToGeminiFormat messages) apiKey])

/-- Outcome processing of `getGroqResponse` after the request is sent. -/
def groqOutcome : FetchResult OpenAIResponse → Except JsThrown String
  | FetchResult.reject e => Except.error e
  | FetchResult.httpError status statusText errMsg =>
    Except.error (JsThrown.errorObj
      ("Groq API request failed: " ++ natToString status ++ " " ++ statusText ++ ". "
        ++ errMsg.getD ""))
  | FetchResult.ok (Except.error e) => Except.error e
  | FetchResult.ok (Except.ok data) =>
    match data.choices with
    | [] => Except.error (JsThrown.errorObj "No response received from Groq API")
    | ch :: _ => Except.ok (jsTrim ch.message.content)

/-- `getGroqResponse`: sends one request with the OpenAI-formatted payload
and processes the outcome. -/
def getGroqResponse (messages : List ChatMessage) (apiKey : String)
    (fr : FetchResult OpenAIResponse) : Except JsThrown String × List SentRequest :=
  (groqOutcome fr, [SentRequest.groq (convertToOpenAIFormat messages) apiKey])

/-- Outcome processing of `getOpenAIResponse` after the request is sent. -/
def openaiOutcome : FetchResult OpenAIResponse → Except JsThrown String
  | FetchResult.reject e => Except.error e
  | FetchResult.httpError status statusText errMsg =>
    Except.error (JsThrown.errorObj
      ("OpenAI API request failed: " ++ natToString status ++ " " ++ statusText ++ ". "
        ++ errMsg.getD ""))
  | FetchResult.ok (Except.error e) => Except.error e
  | FetchResult.ok (Except.ok data) =>
    match data.choices with
    | [] => Except.error (JsThrown.errorObj "No response received from OpenAI API")
    | ch :: _ => Except.ok (jsTrim ch.message.content)

/-- `getOpenAIResponse`: sends one request with the OpenAI-formatted payload
and processes the outcome. -/
def getOpenAIResponse (messages : List ChatMessage) (apiKey : String)
    (fr : FetchResult OpenAIResponse) : Except JsThrown String × List SentRequest :=
  (openaiOutcome fr, [SentRequest.openai (convertToOpenAIFormat messages) apiKey])

/-- Message of the error thrown when no API key is configured. -/
def noApiKeyMsg : String :=
  "No API key found. Please set VITE_GEMINI_API_KEY, VITE_GROQ_API_KEY, or VITE_OPENAI_API_KEY in your environment variables."

/-- The fallback returned when the caught value is not an `Error`. -/
def fallbackErrorMsg : String :=
  "Error: Could not fetch response. Please try again later."

/-- The `try` body of `getAIResponse`: key-priority selection of the provider
call, or the no-key error. -/
def getAIResponseInner (env : ApiEnv) (net : Net) (messages : List ChatMessage) :
    Except JsThrown String × List SentRequest :=
  if jsTruthy env.geminiKey then
    getGeminiResponse messages (env.geminiKey.getD "") net.gemini
  else if jsTruthy env.groqKey then
    getGroqResponse messages (env.groqKey.getD "") net.groq
  else if jsTruthy env.openaiKey then
    getOpenAIResponse messages (env.openaiKey.getD "") net.openai
  else
    (Except.error (JsThrown.errorObj noApiKeyMsg), [])

/-- `getAIResponse`: the `try` body wrapped by the `catch` that turns an
`Error` into an explanatory string and anything else into the fallback. -/
def getAIResponse (env : ApiEnv) (net : Net) (messages : List ChatMessage) :
    String × List SentRequest :=
  let r := getAIResponseInner env net messages
  (match r.1 with
   | Except.ok s => s
   | Except.error (JsThrown.errorObj m) => "Error: " ++ m
   | Except.error JsThrown.nonErrorValue => fallbackErrorMsg, r.2)

/-- A chat message as it sits in session storage after JSON serialisation:
the `Date` timestamp has become a string. -/
structure StoredMessage where
  id : String
  text : String
  isUser : Bool
  timestamp : String
deriving DecidableEq

/-- The session-storage slot under the chat key: absent, holding a value
that cannot be parsed back (reading or parsing throws), or holding a parsed
array of stored records. -/
inductive StoreState where
  | absent
  | corrupt
  | data (entries : List StoredMessage)
deriving DecidableEq

/-- JSON serialisation of one message: the timestamp is rendered to a
string. -/
def encodeMessage (m : ChatMessage) : StoredMessage :=
  StoredMessage.mk m.id m.text m.isUser (natToString m.timestamp)

/-- Revival of one stored message: `new Date` on the stored timestamp
string. -/
def decodeMessage (sm : StoredMessage) : ChatMessage :=
  ChatMessage.mk sm.id sm.text sm.isUser (stringToNat sm.timestamp)

/-- `saveMessagesToStorage`: stringify the list and store it. The `setItem`
call can throw (storage full or unavailable); the surrounding catch swallows
the failure, so the slot then keeps its previous value. `writeOk` is whether
the write succeeds, and `store` the prior state of the slot. -/
def saveMessagesToStorage (writeOk : Bool) (messages : List ChatMessage)
    (store : StoreState) : StoreState :=
  if writeOk then StoreState.data (messages.map encodeMessage) else store

/-- Text of the initial welcome message. -/
def welcomeText : String :=
  "Hello! I\x27m your AI study assistant. I can help you with academic questions, study tips, project guidance, and more. What would you like to know?"

/-- The initial welcome message, timestamped with the current time. -/
def welcomeMessage (now : Nat) : ChatMessage :=
  ChatMessage.mk "1" welcomeText false now

/-- `loadMessagesFromStorage`: parse the stored value and revive the
timestamps; on a missing or unreadable value, the initial welcome message. -/
def loadMessagesFromStorage (now : Nat) : StoreState → List ChatMessage
  | StoreState.data entries => entries.map decodeMessage
  | _ => [welcomeMessage now]

/-- `clearChatHistory`: remove the stored value. -/
def clearChatHistory (_ : StoreState) : StoreState :=
  StoreState.absent

/-- State of the `Chat` component: the three `useState` hooks, plus the
continuation data of a send in progress (`pendingResponse` is the resolved
text the code after the `await` will append) and the provider requests
issued but not yet completed. -/
structure ChatState where
  messages : List ChatMessage
  inputValue : String
  isLoading : Bool
  pendingResponse : Option String
  inFlight : List SentRequest
deriving DecidableEq

/-- State after mount: the load effect has filled `messages` from storage. -/
def initChatState (now : Nat) (store : StoreState) : ChatState :=
  ChatState.mk (loadMessagesFromStorage now store) "" false none []

/-- User-interface events driving the component. `submit` covers both the
send button and the Enter key (both invoke `handleSendMessage`); its clock
is the `Date.now` reading at the send, and `net` the outcome its provider
call would observe. `finish` is the resumption after the awaited response,
with the `Date.now` reading at that moment. -/
inductive ChatEvent where
  | setInput (value : String)
  | submit (now : Nat) (net : Net)
  | finish (now : Nat)
  | clear

/-- One step of the component. `submit` mirrors `handleSendMessage` up to
the `await`: guard on empty input or a send in progress, append the user
message, issue the provider call. `finish` mirrors the code after the
`await` and the `finally`: append the response message, stop loading.
`setInput` mirrors typing into the text field (disabled while loading), and
`clear` mirrors `handleClearChat`. -/
def stepChat (env : ApiEnv) (s : ChatState) : ChatEvent → ChatState × List SentRequest
  | ChatEvent.setInput v =>
    (if s.isLoading then s
     else ChatState.mk s.messages v s.isLoading s.pendingResponse s.inFlight, [])
  | ChatEvent.submit now net =>
    if (jsTrim s.inputValue).isEmpty || s.isLoading then (s, [])
    else
      let messageText := jsTrim s.inputValue
      let userMessage := ChatMessage.mk (natToString now) messageText true now
      let updatedMessages := s.messages ++ [userMessage]
      let result := getAIResponse env net updatedMessages
      (ChatState.mk updatedMessages "" true (some result.1) (s.inFlight ++ result.2),
       result.2)
  | ChatEvent.finish now =>
    match s.pendingResponse with
    | none => (s, [])
    | some resp =>
      let aiMessage := ChatMessage.mk (natToString (now + 1)) resp false now
      (ChatState.mk (s.messages ++ [aiMessage]) s.inputValue false none [], [])
  | ChatEvent.clear =>
    (ChatState.mk [] s.inputValue s.isLoading s.pendingResponse s.inFlight, [])

/-- The component state after a sequence of events. -/
def runTrace (env : ApiEnv) (s : ChatState) : List ChatEvent → ChatState
  | [] => s
  | e :: rest => runTrace env (stepChat env s e).1 rest

/-- The `Date.now` reading taken while handling an event, when there is
one. -/
def eventClock : ChatEvent → Option Nat
  | ChatEvent.submit now _ => some now
  | ChatEvent.finish now => some now
  | _ => none

/-- Clock readings of a trace are separated: each reading exceeds the
previous one (starting from `prev`) by at least 2 milliseconds. -/
def clocksSeparated : Nat → List ChatEvent → Bool
  | _, [] => true
  | prev, e :: rest =>
    match eventClock e with
    | none => clocksSeparated prev rest
    | some t => decide (prev + 2 ≤ t) && clocksSeparated t rest

/-- The invariant relating the loading flag, the pending continuation, and
the provider requests in flight. -/
def chatInv (s : ChatState) : Prop :=
  s.isLoading = s.pendingResponse.isSome ∧
  s.inFlight.length ≤ 1 ∧
  (s.isLoading = false → s.inFlight = [])

/-- Every id in the list is the decimal rendering of a number at most
`bound`. -/
def idBounded (bound : Nat) (messages : List ChatMessage) : Prop :=
  ∀ m ∈ messages, ∃ k, k ≤ bound ∧ m.id = natToString k
theorem digitsToNat_natDigitsRevAux :
    ∀ fuel n, n ≤ fuel → digitsToNat (natDigitsRevAux fuel n) = n := by
  intro fuel
  induction fuel with
  | zero =>
    intro n hn
    have h0 : n = 0 := Nat.le_zero.mp hn
    subst h0
    rfl
  | succ f ih =>
    intro n hn
    by_cases h : n = 0
    · subst h; rfl
    · have hdiv : n / 10 ≤ f := by
        have hlt : n / 10 < n := Nat.div_lt_self (Nat.pos_of_ne_zero h) (by omega)
        omega
      simp only [natDigitsRevAux, if_neg h, digitsToNat, ih (n / 10) hdiv]
      omega

theorem natDigitsRevAux_lt :
    ∀ fuel n d, d ∈ natDigitsRevAux fuel n → d < 10 := by
  intro fuel
  induction fuel with
  | zero => intro n d hd; simp [natDigitsRevAux] at hd
  | succ f ih =>
    intro n d hd
    by_cases h : n = 0
    · subst h; simp [natDigitsRevAux] at hd
    · simp only [natDigitsRevAux, if_neg h, List.mem_cons] at hd
      rcases hd with hd | hd
      · subst hd; exact Nat.mod_lt n (by omega)
      · exact ih (n / 10) d hd

theorem charToDigit_digitToChar (d : Nat) (h : d < 10) :
    charToDigit (digitToChar d) = d := by
  interval_cases d <;> decide

theorem stringToNat_natToString (n : Nat) : stringToNat (natToString n) = n := by
  by_cases h : n = 0
  · subst h; decide
  · simp only [natToString, if_neg h, stringToNat]
    show digitsToNat ((((natDigitsRev n).map digitToChar).reverse.map charToDigit).reverse) = n
    rw [List.map_reverse, List.reverse_reverse, List.map_map]
    have hmap : (natDigitsRev n).map (charToDigit ∘ digitToChar) = natDigitsRev n := by
      have := List.map_id (natDigitsRev n)
      calc (natDigitsRev n).map (charToDigit ∘ digitToChar)
          = (natDigitsRev n).map id := by
            apply List.map_congr_left
            intro d hd
            exact charToDigit_digitToChar d (natDigitsRevAux_lt n n d hd)
        _ = natDigitsRev n := List.map_id (natDigitsRev n)
    rw [hmap]
    exact digitsToNat_natDigitsRevAux n n (Nat.le_refl n)

theorem natToString_inj {a b : Nat} (h : natToString a = natToString b) : a = b := by
  have := congrArg stringToNat h
  rwa [stringToNat_natToString, stringToNat_natToString] at this


theorem getAIResponse_snd (env : ApiEnv) (net : Net) (messages : List ChatMessage) :
    (getAIResponse env net messages).2 = (getAIResponseInner env net messages).2 :=
  rfl

theorem getAIResponse_snd_length (env : ApiEnv) (net : Net) (messages : List ChatMessage) :
    (getAIResponse env net messages).2.length ≤ 1 := by
  rw [getAIResponse_snd]
  unfold getAIResponseInner
  split_ifs <;> simp [getGeminiResponse, getGroqResponse, getOpenAIResponse]

/-- C1: for every message list, `getAIResponse` sends the request to exactly
one provider, chosen by key presence with priority Gemini, then Groq, then
OpenAI (a configured Gemini key wins even when the others are set), and when
no key is configured it yields the explanatory no-key error string without
calling any provider. -/
theorem provider_selection_by_key (env : ApiEnv) (net : Net) (messages : List ChatMessage) :
    (getAIResponse env net messages).2.length ≤ 1 ∧
    (jsTruthy env.geminiKey = true →
      (getAIResponse env net messages).2 =
        [SentRequest.gemini (convertToGeminiFormat messages) (env.geminiKey.getD "")]) ∧
    (jsTruthy env.geminiKey = false → jsTruthy env.groqKey = true →
      (getAIResponse env net messages).2 =
        [SentRequest.groq (convertToOpenAIFormat messages) (env.groqKey.getD "")]) ∧
    (jsTruthy env.geminiKey = false → jsTruthy env.groqKey = false →
      jsTruthy env.openaiKey = true →
      (getAIResponse env net messages).2 =
        [SentRequest.openai (convertToOpenAIFormat messages) (env.openaiKey.getD "")]) ∧
    (jsTruthy env.geminiKey = false → jsTruthy env.groqKey = false →
      jsTruthy env.openaiKey = false →
      getAIResponse env net messages =
        ("Error: No API key found. Please set VITE_GEMINI_API_KEY, VITE_GROQ_API_KEY, or VITE_OPENAI_API_KEY in your environment variables.", [])) := by
  refine ⟨getAIResponse_snd_length env net messages, ?_, ?_, ?_, ?_⟩
  · intro h1
    rw [getAIResponse_snd]
    simp [getAIResponseInner, h1, getGeminiResponse]
  · intro h1 h2
    rw [getAIResponse_snd]
    simp [getAIResponseInner, h1, h2, getGroqResponse]
  · intro h1 h2 h3
    rw [getAIResponse_snd]
    simp [getAIResponseInner, h1, h2, h3, getOpenAIResponse]
  · intro h1 h2 h3
    have hin : getAIResponseInner env net messages =
        (Except.error (JsThrown.errorObj noApiKeyMsg), []) := by
      simp [getAIResponseInner, h1, h2, h3]
    have hs : "Error: " ++ noApiKeyMsg =
        "Error: No API key found. Please set VITE_GEMINI_API_KEY, VITE_GROQ_API_KEY, or VITE_OPENAI_API_KEY in your environment variables." := by
      decide
    simp [getAIResponse, hin, hs]

theorem provider_selection_by_key_witness :
    (getAIResponse (ApiEnv.mk (some "gk") (some "qk") (some "ak"))
      (Net.mk (FetchResult.reject JsThrown.nonErrorValue)
        (FetchResult.reject JsThrown.nonErrorValue)
        (FetchResult.reject JsThrown.nonErrorValue)) []).2 =
      [SentRequest.gemini (convertToGeminiFormat []) "gk"] ∧
    getAIResponse (ApiEnv.mk none none none)
      (Net.mk (FetchResult.reject JsThrown.nonErrorValue)
        (FetchResult.reject JsThrown.nonErrorValue)
        (FetchResult.reject JsThrown.nonErrorValue)) [] =
      ("Error: No API key found. Please set VITE_GEMINI_API_KEY, VITE_GROQ_API_KEY, or VITE_OPENAI_API_KEY in your environment variables.", []) :=
  ⟨(provider_selection_by_key (ApiEnv.mk (some "gk") (some "qk") (some "ak"))
      (Net.mk (FetchResult.reject JsThrown.nonErrorValue)
        (FetchResult.reject JsThrown.nonErrorValue)
        (FetchResult.reject JsThrown.nonErrorValue)) []).2.1 rfl,
   (provider_selection_by_key (ApiEnv.mk none none none)
      (Net.mk (FetchResult.reject JsThrown.nonErrorValue)
        (FetchResult.reject JsThrown.nonErrorValue)
        (FetchResult.reject JsThrown.nonErrorValue)) []).2.2.2.2 rfl rfl rfl⟩

/-- C9: `getAIResponse` is total at its interface: for every environment,
network outcome and message list it returns a string, and when the inner
computation fails the returned string is the caught message prefixed by
"Error: ", or the fixed fallback when the thrown value is not an `Error`;
the caller's rejection branch is unreachable through it. -/
theorem getAIResponse_error_shape (env : ApiEnv) (net : Net) (messages : List ChatMessage) :
    (∃ s reqs, getAIResponseInner env net messages = (Except.ok s, reqs) ∧
      getAIResponse env net messages = (s, reqs)) ∨
    (∃ m reqs, getAIResponseInner env net messages = (Except.error (JsThrown.errorObj m), reqs) ∧
      getAIResponse env net messages = ("Error: " ++ m, reqs)) ∨
    (∃ reqs, getAIResponseInner env net messages = (Except.error JsThrown.nonErrorValue, reqs) ∧
      getAIResponse env net messages = (fallbackErrorMsg, reqs)) := by
  rcases h : getAIResponseInner env net messages with ⟨r, reqs⟩
  cases r with
  | ok s =>
    exact Or.inl ⟨s, reqs, rfl, by simp [getAIResponse, h]⟩
  | error e =>
    cases e with
    | errorObj m =>
      exact Or.inr (Or.inl ⟨m, reqs, rfl, by simp [getAIResponse, h]⟩)
    | nonErrorValue =>
      exact Or.inr (Or.inr ⟨reqs, rfl, by simp [getAIResponse, h]⟩)

/-- C10: `loadMessagesFromStorage` never fails and never returns an empty
result for missing data: when the stored value is absent, or reading or
parsing it throws, it returns exactly the one welcome message with id "1"
and `isUser` false. -/
theorem load_welcome_on_missing_or_unreadable (now : Nat) :
    loadMessagesFromStorage now StoreState.absent =
      [ChatMessage.mk "1" welcomeText false now] ∧
    loadMessagesFromStorage now StoreState.corrupt =
      [ChatMessage.mk "1" welcomeText false now] ∧
    (ChatMessage.mk "1" welcomeText false now).isUser = false :=
  ⟨rfl, rfl, rfl⟩

/-- C3 counterexample: the unconditional round-trip fails when `setItem`
throws, because the catch swallows the failure and the slot keeps its
previous value: here a failed write over an absent slot makes the load
return the welcome message instead of the saved list (whose timestamp is a
valid date). -/
theorem storage_roundtrip_fails_on_write_error :
    loadMessagesFromStorage 3
      (saveMessagesToStorage false [ChatMessage.mk "2" "hi" true 5] StoreState.absent) ≠
      [ChatMessage.mk "2" "hi" true 5] := by
  decide

/-- C3 (amended): when the storage write succeeds, saving a list of messages
with valid timestamps and loading it back returns a list equal to the
original, whatever the slot held before, the timestamps surviving their
serialisation to a string and reconstruction; when the write throws, the
slot keeps its previous contents instead. -/
theorem storage_roundtrip_when_write_succeeds (now : Nat) (store : StoreState)
    (messages : List ChatMessage)
    (_hvalid : ∀ m ∈ messages, m.timestamp ≤ 8640000000000000) :
    loadMessagesFromStorage now (saveMessagesToStorage true messages store) = messages := by
  simp only [saveMessagesToStorage, if_true, loadMessagesFromStorage, List.map_map]
  calc messages.map (decodeMessage ∘ encodeMessage)
      = messages.map id := by
        apply List.map_congr_left
        intro m _
        cases m with
        | mk i t u ts =>
          simp [decodeMessage, encodeMessage, stringToNat_natToString]
    _ = messages := List.map_id messages

theorem storage_roundtrip_when_write_succeeds_witness :
    loadMessagesFromStorage 3
      (saveMessagesToStorage true [ChatMessage.mk "1" "hi" true 5, ChatMessage.mk "2" "yo" false 7]
        StoreState.absent) =
      [ChatMessage.mk "1" "hi" true 5, ChatMessage.mk "2" "yo" false 7] :=
  storage_roundtrip_when_write_succeeds 3 StoreState.absent
    [ChatMessage.mk "1" "hi" true 5, ChatMessage.mk "2" "yo" false 7]
    (by decide)

/-- C4: `convertToOpenAIFormat` maps `n` messages to `n + 1` wire messages,
the first being the fixed system instruction, the rest the input messages in
order, each with the user role exactly when `isUser` holds and the original
text as content. -/
theorem openai_format_translation (messages : List ChatMessage) :
    (convertToOpenAIFormat messages).length = messages.length + 1 ∧
    (convertToOpenAIFormat messages).head? =
      some (OpenAIMessage.mk OpenAIRole.system systemPromptText) ∧
    (∀ i m, messages[i]? = some m →
      (convertToOpenAIFormat messages)[i + 1]? =
        some (OpenAIMessage.mk (if m.isUser then OpenAIRole.user else OpenAIRole.assistant)
          m.text)) := by
  refine ⟨by simp [convertToOpenAIFormat], rfl, ?_⟩
  intro i m h
  simp [convertToOpenAIFormat, List.getElem?_map, h]

theorem openai_format_translation_witness :
    (convertToOpenAIFormat [ChatMessage.mk "1" "a" true 0, ChatMessage.mk "2" "b" false 0])[1]? =
      some (OpenAIMessage.mk OpenAIRole.user "a") ∧
    (convertToOpenAIFormat [ChatMessage.mk "1" "a" true 0, ChatMessage.mk "2" "b" false 0])[2]? =
      some (OpenAIMessage.mk OpenAIRole.assistant "b") :=
  ⟨(openai_format_translation [ChatMessage.mk "1" "a" true 0, ChatMessage.mk "2" "b" false 0]).2.2
      0 (ChatMessage.mk "1" "a" true 0) rfl,
   (openai_format_translation [ChatMessage.mk "1" "a" true 0, ChatMessage.mk "2" "b" false 0]).2.2
      1 (ChatMessage.mk "2" "b" false 0) rfl⟩

theorem convertToGeminiFormatAux_length (b : Bool) (messages : List ChatMessage) :
    (convertToGeminiFormatAux b messages).length = messages.length := by
  induction messages generalizing b with
  | nil => rfl
  | cons m rest ih =>
    cases hm : m.isUser <;> simp [convertToGeminiFormatAux, hm, ih]

theorem convertToGeminiFormatAux_getElem (b : Bool) (messages : List ChatMessage)
    (i : Nat) (m : ChatMessage) (h : messages[i]? = some m) :
    (convertToGeminiFormatAux b messages)[i]? =
      some (if m.isUser then
              GeminiMessage.mk GeminiRole.user
                [GeminiPart.mk (if b && (messages.take i).all (fun x => !x.isUser)
                  then systemPromptText ++ "\n\nUser: " ++ m.text else m.text)]
            else GeminiMessage.mk GeminiRole.model [GeminiPart.mk m.text]) := by
  induction messages generalizing b i with
  | nil => simp at h
  | cons hd rest ih =>
    cases i with
    | zero =>
      simp only [List.getElem?_cons_zero, Option.some.injEq] at h
      subst h
      cases hm : hd.isUser <;>
        simp [convertToGeminiFormatAux, hm]
    | succ j =>
      simp only [List.getElem?_cons_succ] at h
      cases hm : hd.isUser
      · have := ih b j h
        simpa [convertToGeminiFormatAux, hm, List.take_succ_cons] using this
      · have := ih false j h
        simpa [convertToGeminiFormatAux, hm, List.take_succ_cons] using this

/-- C5: `convertToGeminiFormat` maps `n` messages to `n` wire messages in
order; non-user messages become the model role with text unchanged, user
messages become the user role, the system instruction is spliced into
exactly the first user-authored message, and every later user message keeps
its text unchanged. -/
theorem gemini_format_translation (messages : List ChatMessage) :
    (convertToGeminiFormat messages).length = messages.length ∧
    (∀ (i : Nat) (m : ChatMessage), messages[i]? = some m → m.isUser = false →
      (convertToGeminiFormat messages)[i]? =
        some (GeminiMessage.mk GeminiRole.model [GeminiPart.mk m.text])) ∧
    (∀ (i : Nat) (m : ChatMessage), messages[i]? = some m → m.isUser = true →
      (messages.take i).all (fun x => !x.isUser) = true →
      (convertToGeminiFormat messages)[i]? =
        some (GeminiMessage.mk GeminiRole.user
          [GeminiPart.mk (systemPromptText ++ "\n\nUser: " ++ m.text)])) ∧
    (∀ (i : Nat) (m : ChatMessage), messages[i]? = some m → m.isUser = true →
      (messages.take i).all (fun x => !x.isUser) = false →
      (convertToGeminiFormat messages)[i]? =
        some (GeminiMessage.mk GeminiRole.user [GeminiPart.mk m.text])) := by
  refine ⟨convertToGeminiFormatAux_length true messages, ?_, ?_, ?_⟩
  · intro i m h hu
    have := convertToGeminiFormatAux_getElem true messages i m h
    simpa [hu] using this
  · intro i m h hu hall
    have := convertToGeminiFormatAux_getElem true messages i m h
    simpa [hu, hall] using this
  · intro i m h hu hall
    have := convertToGeminiFormatAux_getElem true messages i m h
    simpa [hu, hall] using this

theorem gemini_format_translation_witness :
    (convertToGeminiFormat [ChatMessage.mk "1" "q" true 0, ChatMessage.mk "2" "r" false 0,
        ChatMessage.mk "3" "s" true 0])[0]? =
      some (GeminiMessage.mk GeminiRole.user
        [GeminiPart.mk (systemPromptText ++ "\n\nUser: " ++ "q")]) ∧
    (convertToGeminiFormat [ChatMessage.mk "1" "q" true 0, ChatMessage.mk "2" "r" false 0,
        ChatMessage.mk "3" "s" true 0])[1]? =
      some (GeminiMessage.mk GeminiRole.model [GeminiPart.mk "r"]) ∧
    (convertToGeminiFormat [ChatMessage.mk "1" "q" true 0, ChatMessage.mk "2" "r" false 0,
        ChatMessage.mk "3" "s" true 0])[2]? =
      some (GeminiMessage.mk GeminiRole.user [GeminiPart.mk "s"]) :=
  ⟨(gemini_format_translation [ChatMessage.mk "1" "q" true 0, ChatMessage.mk "2" "r" false 0,
      ChatMessage.mk "3" "s" true 0]).2.2.1 0 (ChatMessage.mk "1" "q" true 0) rfl rfl (by decide),
   (gemini_format_translation [ChatMessage.mk "1" "q" true 0, ChatMessage.mk "2" "r" false 0,
      ChatMessage.mk "3" "s" true 0]).2.1 1 (ChatMessage.mk "2" "r" false 0) rfl rfl,
   (gemini_format_translation [ChatMessage.mk "1" "q" true 0, ChatMessage.mk "2" "r" false 0,
      ChatMessage.mk "3" "s" true 0]).2.2.2 2 (ChatMessage.mk "3" "s" true 0) rfl rfl (by decide)⟩

/-- C2: when the provider call of a send fails (rejected fetch, non-ok
status, empty candidates or choices, or any thrown value), the send appends
the user message and then exactly one assistant-side message whose text is
an explanatory string beginning with "Error", issues at most one request,
and leaves the previously present messages unchanged. -/
theorem send_failure_appends_one_error_message (env : ApiEnv) (net : Net) (s : ChatState)
    (now now2 : Nat)
    (hnotloading : s.isLoading = false)
    (hinput : (jsTrim s.inputValue).isEmpty = false)
    (hfail : ∃ e reqs, getAIResponseInner env net
        (s.messages ++ [ChatMessage.mk (natToString now) (jsTrim s.inputValue) true now]) =
        (Except.error e, reqs)) :
    ∃ err : ChatMessage,
      ((stepChat env (stepChat env s (ChatEvent.submit now net)).1
          (ChatEvent.finish now2)).1).messages =
        s.messages ++ [ChatMessage.mk (natToString now) (jsTrim s.inputValue) true now, err] ∧
      err.isUser = false ∧
      (∃ rest, err.text = "Error" ++ rest) ∧
      (stepChat env s (ChatEvent.submit now net)).2.length ≤ 1 ∧
      (stepChat env (stepChat env s (ChatEvent.submit now net)).1 (ChatEvent.finish now2)).2 =
        [] := by
  obtain ⟨e, reqs, hfail⟩ := hfail
  have hresp : ∃ rest,
      (getAIResponse env net
        (s.messages ++ [ChatMessage.mk (natToString now) (jsTrim s.inputValue) true now])).1 =
        "Error" ++ rest := by
    cases e with
    | errorObj m =>
      refine ⟨": " ++ m, ?_⟩
      have h1 : (getAIResponse env net
          (s.messages ++ [ChatMessage.mk (natToString now) (jsTrim s.inputValue) true now])).1 =
          "Error: " ++ m := by
        simp [getAIResponse, hfail]
      rw [h1]
      have h2 : "Error: " = "Error" ++ ": " := by decide
      rw [h2, String.append_assoc]
    | nonErrorValue =>
      refine ⟨": Could not fetch response. Please try again later.", ?_⟩
      have h1 : (getAIResponse env net
          (s.messages ++ [ChatMessage.mk (natToString now) (jsTrim s.inputValue) true now])).1 =
          fallbackErrorMsg := by
        simp [getAIResponse, hfail]
      rw [h1]
      decide
  have hstep : stepChat env s (ChatEvent.submit now net) =
      (ChatState.mk
        (s.messages ++ [ChatMessage.mk (natToString now) (jsTrim s.inputValue) true now])
        "" true
        (some (getAIResponse env net
          (s.messages ++ [ChatMessage.mk (natToString now) (jsTrim s.inputValue) true now])).1)
        (s.inFlight ++ (getAIResponse env net
          (s.messages ++ [ChatMessage.mk (natToString now) (jsTrim s.inputValue) true now])).2),
       (getAIResponse env net
          (s.messages ++ [ChatMessage.mk (natToString now) (jsTrim s.inputValue) true now])).2) := by
    simp [stepChat, hinput, hnotloading]
  refine ⟨ChatMessage.mk (natToString (now2 + 1))
      (getAIResponse env net
        (s.messages ++ [ChatMessage.mk (natToString now) (jsTrim s.inputValue) true now])).1
      false now2, ?_, rfl, hresp, ?_, ?_⟩
  · rw [hstep]
    simp [stepChat]
  · rw [hstep]
    exact getAIResponse_snd_length env net _
  · rw [hstep]
    simp [stepChat]

theorem send_failure_appends_one_error_message_witness :
    ∃ err : ChatMessage,
      ((stepChat (ApiEnv.mk none none none)
          (stepChat (ApiEnv.mk none none none) (ChatState.mk [] "hi" false none [])
            (ChatEvent.submit 5 (Net.mk (FetchResult.reject JsThrown.nonErrorValue)
              (FetchResult.reject JsThrown.nonErrorValue)
              (FetchResult.reject JsThrown.nonErrorValue)))).1
          (ChatEvent.finish 6)).1).messages =
        [] ++ [ChatMessage.mk (natToString 5) (jsTrim "hi") true 5, err] ∧
      err.isUser = false ∧
      (∃ rest, err.text = "Error" ++ rest) ∧
      (stepChat (ApiEnv.mk none none none) (ChatState.mk [] "hi" false none [])
          (ChatEvent.submit 5 (Net.mk (FetchResult.reject JsThrown.nonErrorValue)
            (FetchResult.reject JsThrown.nonErrorValue)
            (FetchResult.reject JsThrown.nonErrorValue)))).2.length ≤ 1 ∧
      (stepChat (ApiEnv.mk none none none)
          (stepChat (ApiEnv.mk none none none) (ChatState.mk [] "hi" false none [])
            (ChatEvent.submit 5 (Net.mk (FetchResult.reject JsThrown.nonErrorValue)
              (FetchResult.reject JsThrown.nonErrorValue)
              (FetchResult.reject JsThrown.nonErrorValue)))).1
          (ChatEvent.finish 6)).2 = [] :=
  send_failure_appends_one_error_message (ApiEnv.mk none none none)
    (Net.mk (FetchResult.reject JsThrown.nonErrorValue)
      (FetchResult.reject JsThrown.nonErrorValue)
      (FetchResult.reject JsThrown.nonErrorValue))
    (ChatState.mk [] "hi" false none []) 5 6 rfl (by decide)
    ⟨JsThrown.errorObj noApiKeyMsg, [], rfl⟩

/-- C7 (amended): every step of the component either appends at the end,
leaving the already-present messages, their contents and their order
unchanged, or is the clear action, which resets the whole list to empty; no
operation edits, reorders, or removes an individual message while keeping
the rest. -/
theorem step_appends_or_clears (env : ApiEnv) (s : ChatState) (e : ChatEvent) :
    (∃ tail, ((stepChat env s e).1).messages = s.messages ++ tail) ∨
    (e = ChatEvent.clear ∧ ((stepChat env s e).1).messages = []) := by
  cases e with
  | setInput v =>
    refine Or.inl ⟨[], ?_⟩
    cases hl : s.isLoading <;> simp [stepChat, hl]
  | submit now net =>
    cases hc : ((jsTrim s.inputValue).isEmpty || s.isLoading) with
    | true => exact Or.inl ⟨[], by simp [stepChat, hc]⟩
    | false =>
      exact Or.inl ⟨[ChatMessage.mk (natToString now) (jsTrim s.inputValue) true now],
        by simp [stepChat, hc]⟩
  | finish now =>
    cases hp : s.pendingResponse with
    | none => exact Or.inl ⟨[], by simp [stepChat, hp]⟩
    | some resp =>
      exact Or.inl ⟨[ChatMessage.mk (natToString (now + 1)) resp false now],
        by simp [stepChat, hp]⟩
  | clear => exact Or.inr ⟨rfl, rfl⟩

/-- C7 counterexample: the claim as stated fails on the clear action, which
does not preserve the already-present messages. -/
theorem clear_chat_removes_existing_messages :
    ¬ ∃ tail, ((stepChat (ApiEnv.mk none none none)
        (ChatState.mk [ChatMessage.mk "1" welcomeText false 0] "" false none [])
        ChatEvent.clear).1).messages =
      (ChatState.mk [ChatMessage.mk "1" welcomeText false 0] "" false none []).messages ++
        tail := by
  rintro ⟨tail, h⟩
  simp [stepChat] at h

theorem initChatState_chatInv (now : Nat) (store : StoreState) :
    chatInv (initChatState now store) :=
  ⟨rfl, by simp [initChatState], fun _ => rfl⟩

theorem stepChat_chatInv (env : ApiEnv) (s : ChatState) (e : ChatEvent)
    (h : chatInv s) : chatInv (stepChat env s e).1 := by
  obtain ⟨h1, h2, h3⟩ := h
  cases e with
  | setInput v =>
    cases hl : s.isLoading with
    | true =>
      have hs : (stepChat env s (ChatEvent.setInput v)).1 = s := by
        simp [stepChat, hl]
      rw [hs]
      exact ⟨h1, h2, h3⟩
    | false =>
      have hs : (stepChat env s (ChatEvent.setInput v)).1 =
          ChatState.mk s.messages v s.isLoading s.pendingResponse s.inFlight := by
        simp [stepChat, hl]
      rw [hs]
      exact ⟨h1, h2, h3⟩
  | submit now net =>
    cases hc : ((jsTrim s.inputValue).isEmpty || s.isLoading) with
    | true =>
      have hs : (stepChat env s (ChatEvent.submit now net)).1 = s := by
        simp [stepChat, hc]
      rw [hs]
      exact ⟨h1, h2, h3⟩
    | false =>
      have hl : s.isLoading = false := (Bool.or_eq_false_iff.mp hc).2
      have hif : s.inFlight = [] := h3 hl
      have hs : (stepChat env s (ChatEvent.submit now net)).1 =
          ChatState.mk
            (s.messages ++ [ChatMessage.mk (natToString now) (jsTrim s.inputValue) true now])
            "" true
            (some (getAIResponse env net (s.messages ++
              [ChatMessage.mk (natToString now) (jsTrim s.inputValue) true now])).1)
            (s.inFlight ++ (getAIResponse env net (s.messages ++
              [ChatMessage.mk (natToString now) (jsTrim s.inputValue) true now])).2) := by
        simp [stepChat, hc]
      rw [hs]
      refine ⟨rfl, ?_, fun hfalse => by simp at hfalse⟩
      show (s.inFlight ++ _).length ≤ 1
      rw [hif]
      simpa using getAIResponse_snd_length env net
        (s.messages ++ [ChatMessage.mk (natToString now) (jsTrim s.inputValue) true now])
  | finish now =>
    cases hp : s.pendingResponse with
    | none =>
      have hs : (stepChat env s (ChatEvent.finish now)).1 = s := by
        simp [stepChat, hp]
      rw [hs]
      exact ⟨h1, h2, h3⟩
    | some resp =>
      have hs : (stepChat env s (ChatEvent.finish now)).1 =
          ChatState.mk (s.messages ++ [ChatMessage.mk (natToString (now + 1)) resp false now])
            s.inputValue false none [] := by
        simp [stepChat, hp]
      rw [hs]
      exact ⟨rfl, by simp, fun _ => rfl⟩
  | clear =>
    exact ⟨h1, h2, h3⟩

theorem runTrace_chatInv (env : ApiEnv) (events : List ChatEvent) :
    ∀ s : ChatState, chatInv s → chatInv (runTrace env s events) := by
  induction events with
  | nil => intro s h; exact h
  | cons e rest ih =>
    intro s h
    exact ih (stepChat env s e).1 (stepChat_chatInv env s e h)

/-- C8: in every reachable state at most one provider request is in flight;
while `isLoading` holds a submit performs no action and issues no request,
and after the pending request completes (successfully or not) `isLoading` is
false again. -/
theorem single_inflight_request (env : ApiEnv) (now0 : Nat) (store : StoreState)
    (events : List ChatEvent) (now : Nat) (net : Net) :
    (∀ t : ChatState, t.isLoading = true →
      stepChat env t (ChatEvent.submit now net) = (t, [])) ∧
    ((runTrace env (initChatState now0 store) events).inFlight).length ≤ 1 ∧
    ((runTrace env (initChatState now0 store) events).isLoading = false →
      (runTrace env (initChatState now0 store) events).inFlight = []) ∧
    ((runTrace env (initChatState now0 store) events).isLoading = true →
      ((stepChat env (runTrace env (initChatState now0 store) events)
        (ChatEvent.finish now)).1).isLoading = false) := by
  have hinv : chatInv (runTrace env (initChatState now0 store) events) :=
    runTrace_chatInv env events (initChatState now0 store) (initChatState_chatInv now0 store)
  obtain ⟨h1, h2, h3⟩ := hinv
  refine ⟨?_, h2, h3, ?_⟩
  · intro t ht
    simp [stepChat, ht]
  · intro hl
    have hp : (runTrace env (initChatState now0 store) events).pendingResponse.isSome = true := by
      rw [← h1]; exact hl
    cases hpr : (runTrace env (initChatState now0 store) events).pendingResponse with
    | none => rw [hpr] at hp; simp at hp
    | some resp => simp [stepChat, hpr]

theorem single_inflight_request_witness :
    ((runTrace (ApiEnv.mk none none none) (initChatState 0 StoreState.absent) []).isLoading =
      false) ∧
    ((runTrace (ApiEnv.mk none none none) (initChatState 0 StoreState.absent) []).inFlight =
      []) ∧
    ((runTrace (ApiEnv.mk none none none) (initChatState 0 StoreState.absent)
      [ChatEvent.setInput "hi", ChatEvent.submit 3 (Net.mk
        (FetchResult.reject JsThrown.nonErrorValue) (FetchResult.reject JsThrown.nonErrorValue)
        (FetchResult.reject JsThrown.nonErrorValue))]).isLoading = true) ∧
    (((stepChat (ApiEnv.mk none none none)
        (runTrace (ApiEnv.mk none none none) (initChatState 0 StoreState.absent)
          [ChatEvent.setInput "hi", ChatEvent.submit 3 (Net.mk
            (FetchResult.reject JsThrown.nonErrorValue)
            (FetchResult.reject JsThrown.nonErrorValue)
            (FetchResult.reject JsThrown.nonErrorValue))])
        (ChatEvent.finish 9)).1).isLoading = false) ∧
    (stepChat (ApiEnv.mk none none none) (ChatState.mk [] "x" true none [])
      (ChatEvent.submit 9 (Net.mk (FetchResult.reject JsThrown.nonErrorValue)
        (FetchResult.reject JsThrown.nonErrorValue)
        (FetchResult.reject JsThrown.nonErrorValue))) =
      (ChatState.mk [] "x" true none [], [])) :=
  ⟨rfl, (single_inflight_request (ApiEnv.mk none none none) 0 StoreState.absent [] 9
      (Net.mk (FetchResult.reject JsThrown.nonErrorValue)
        (FetchResult.reject JsThrown.nonErrorValue)
        (FetchResult.reject JsThrown.nonErrorValue))).2.2.1 rfl,
   by decide,
   (single_inflight_request (ApiEnv.mk none none none) 0 StoreState.absent
      [ChatEvent.setInput "hi", ChatEvent.submit 3 (Net.mk
        (FetchResult.reject JsThrown.nonErrorValue) (FetchResult.reject JsThrown.nonErrorValue)
        (FetchResult.reject JsThrown.nonErrorValue))] 9
      (Net.mk (FetchResult.reject JsThrown.nonErrorValue)
        (FetchResult.reject JsThrown.nonErrorValue)
        (FetchResult.reject JsThrown.nonErrorValue))).2.2.2 (by decide),
   (single_inflight_request (ApiEnv.mk none none none) 0 StoreState.absent [] 9
      (Net.mk (FetchResult.reject JsThrown.nonErrorValue)
        (FetchResult.reject JsThrown.nonErrorValue)
        (FetchResult.reject JsThrown.nonErrorValue))).1
      (ChatState.mk [] "x" true none []) rfl⟩

theorem idBounded_mono {b c : Nat} (hbc : b ≤ c) {messages : List ChatMessage}
    (h : idBounded b messages) : idBounded c messages := by
  intro m hm
  obtain ⟨k, hk, he⟩ := h m hm
  exact ⟨k, Nat.le_trans hk hbc, he⟩

theorem idBounded_append_fresh {bound fresh : Nat} {messages : List ChatMessage}
    {m : ChatMessage} (hb : idBounded bound messages) (hlt : bound < fresh)
    (hid : m.id = natToString fresh)
    (hn : (messages.map (fun x => x.id)).Nodup) :
    idBounded fresh (messages ++ [m]) ∧
    ((messages ++ [m]).map (fun x => x.id)).Nodup := by
  constructor
  · intro x hx
    rcases List.mem_append.mp hx with hx | hx
    · obtain ⟨k, hk, he⟩ := hb x hx
      exact ⟨k, by omega, he⟩
    · rw [List.mem_singleton.mp hx]
      exact ⟨fresh, Nat.le_refl fresh, hid⟩
  · rw [List.map_append, List.nodup_append]
    refine ⟨hn, by simp, ?_⟩
    intro a ha hamem
    simp only [List.map_cons, List.map_nil, List.mem_singleton] at hamem
    obtain ⟨x, hx, hxa⟩ := List.mem_map.mp ha
    obtain ⟨k, hk, he⟩ := hb x hx
    rw [hamem, hid] at hxa
    rw [he] at hxa
    have : k = fresh := natToString_inj hxa
    omega

theorem runTrace_ids_nodup (env : ApiEnv) :
    ∀ (events : List ChatEvent) (prev : Nat) (s : ChatState),
      clocksSeparated prev events = true →
      idBounded (prev + 1) s.messages →
      (s.messages.map (fun m => m.id)).Nodup →
      ((runTrace env s events).messages.map (fun m => m.id)).Nodup := by
  intro events
  induction events with
  | nil =>
    intro prev s _ _ hn
    exact hn
  | cons e rest ih =>
    intro prev s hsep hb hn
    simp only [runTrace]
    cases e with
    | setInput v =>
      have hsep' : clocksSeparated prev rest = true := by
        simpa [clocksSeparated, eventClock] using hsep
      have hm : ((stepChat env s (ChatEvent.setInput v)).1).messages = s.messages := by
        cases hl : s.isLoading <;> simp [stepChat, hl]
      exact ih prev _ hsep' (by rw [hm]; exact hb) (by rw [hm]; exact hn)
    | clear =>
      have hsep' : clocksSeparated prev rest = true := by
        simpa [clocksSeparated, eventClock] using hsep
      have hm : ((stepChat env s ChatEvent.clear).1).messages = [] := rfl
      refine ih prev _ hsep' ?_ ?_
      · rw [hm]; intro m hmm; simp at hmm
      · rw [hm]; simp
    | submit now net =>
      have hsep' : prev + 2 ≤ now ∧ clocksSeparated now rest = true := by
        have := hsep
        simp only [clocksSeparated, eventClock, Bool.and_eq_true, decide_eq_true_eq] at this
        exact this
      cases hc : ((jsTrim s.inputValue).isEmpty || s.isLoading) with
      | true =>
        have hm : (stepChat env s (ChatEvent.submit now net)).1 = s := by
          simp [stepChat, hc]
        rw [hm]
        exact ih now s hsep'.2 (idBounded_mono (by omega) hb) hn
      | false =>
        have hm : ((stepChat env s (ChatEvent.submit now net)).1).messages =
            s.messages ++ [ChatMessage.mk (natToString now) (jsTrim s.inputValue) true now] := by
          simp [stepChat, hc]
        have hfresh := idBounded_append_fresh hb
          (show prev + 1 < now by omega) (rfl :
            (ChatMessage.mk (natToString now) (jsTrim s.inputValue) true now).id =
              natToString now) hn
        refine ih now _ hsep'.2 ?_ ?_
        · rw [hm]
          exact idBounded_mono (by omega) hfresh.1
        · rw [hm]
          exact hfresh.2
    | finish now =>
      have hsep' : prev + 2 ≤ now ∧ clocksSeparated now rest = true := by
        have := hsep
        simp only [clocksSeparated, eventClock, Bool.and_eq_true, decide_eq_true_eq] at this
        exact this
      cases hp : s.pendingResponse with
      | none =>
        have hm : (stepChat env s (ChatEvent.finish now)).1 = s := by
          simp [stepChat, hp]
        rw [hm]
        exact ih now s hsep'.2 (idBounded_mono (by omega) hb) hn
      | some resp =>
        have hm : ((stepChat env s (ChatEvent.finish now)).1).messages =
            s.messages ++ [ChatMessage.mk (natToString (now + 1)) resp false now] := by
          simp [stepChat, hp]
        have hfresh := idBounded_append_fresh hb
          (show prev + 1 < now + 1 by omega) (rfl :
            (ChatMessage.mk (natToString (now + 1)) resp false now).id =
              natToString (now + 1)) hn
        refine ih now _ hsep'.2 ?_ ?_
        · rw [hm]
          exact hfresh.1
        · rw [hm]
          exact hfresh.2

/-- C6 (amended): starting from a fresh session (welcome message only), the
ids of the message list stay pairwise distinct provided consecutive clock
readings of the send and response events are separated by at least 2
milliseconds and exceed 1; with closer readings the ids taken from
`Date.now` and `Date.now + 1` can collide. -/
theorem message_ids_unique_under_separated_clocks (env : ApiEnv) (now0 : Nat)
    (events : List ChatEvent) (hsep : clocksSeparated 1 events = true) :
    ((runTrace env (initChatState now0 StoreState.absent) events).messages.map
      (fun m => m.id)).Nodup := by
  apply runTrace_ids_nodup env events 1 (initChatState now0 StoreState.absent) hsep
  · intro m hm
    have hm' : m = welcomeMessage now0 := by
      simpa [initChatState, loadMessagesFromStorage] using hm
    refine ⟨1, by omega, ?_⟩
    rw [hm']
    show "1" = natToString 1
    decide
  · simp [initChatState, loadMessagesFromStorage]

theorem message_ids_unique_under_separated_clocks_witness :
    clocksSeparated 1
      [ChatEvent.setInput "hi",
       ChatEvent.submit 3 (Net.mk (FetchResult.reject JsThrown.nonErrorValue)
         (FetchResult.reject JsThrown.nonErrorValue)
         (FetchResult.reject JsThrown.nonErrorValue)),
       ChatEvent.finish 5] = true ∧
    ((runTrace (ApiEnv.mk none none none) (initChatState 0 StoreState.absent)
      [ChatEvent.setInput "hi",
       ChatEvent.submit 3 (Net.mk (FetchResult.reject JsThrown.nonErrorValue)
         (FetchResult.reject JsThrown.nonErrorValue)
         (FetchResult.reject JsThrown.nonErrorValue)),
       ChatEvent.finish 5]).messages.map (fun m => m.id)).Nodup :=
  ⟨by decide,
   message_ids_unique_under_separated_clocks (ApiEnv.mk none none none) 0
     [ChatEvent.setInput "hi",
      ChatEvent.submit 3 (Net.mk (FetchResult.reject JsThrown.nonErrorValue)
        (FetchResult.reject JsThrown.nonErrorValue)
        (FetchResult.reject JsThrown.nonErrorValue)),
      ChatEvent.finish 5] (by decide)⟩

/-- C6 counterexample: with plausible, strictly increasing clock readings
(5, 6, 7) a reachable message list repeats the id "7": the response message
of the first send gets id 6 + 1 and the next user message gets id 7. -/
theorem message_id_collision :
    ¬ ((runTrace (ApiEnv.mk none none none) (initChatState 0 StoreState.absent)
      [ChatEvent.setInput "hi",
       ChatEvent.submit 5 (Net.mk (FetchResult.reject JsThrown.nonErrorValue)
         (FetchResult.reject JsThrown.nonErrorValue)
         (FetchResult.reject JsThrown.nonErrorValue)),
       ChatEvent.finish 6,
       ChatEvent.setInput "yo",
       ChatEvent.submit 7 (Net.mk (FetchResult.reject JsThrown.nonErrorValue)
         (FetchResult.reject JsThrown.nonErrorValue)
         (FetchResult.reject JsThrown.nonErrorValue))]).messages.map
        (fun m => m.id)).Nodup := by
  decide
